import Mathlib

/-!
Verification development for the IBM MQ ↔ KubeMQ message-bridge daemon.

Shallow embedding of the core components referenced by the claims:
* `src/bindings/metrics.py` — `MetricsCollector`, `BindingMetricsCollector`
* `src/bindings/retry.py` — `RetryWrapper.__call__`
* `src/bindings/binding.py` — `Binding.is_healthy`
* `src/bindings/bindings.py`, `src/bindings/config.py` — supervisor init
* `src/kubemq/client.py` — poll loop per-message handling, `send_message`
* `src/ibm_mq/client.py` — poll loop per-message handling,
  `extract_xml_payload`, `_reconnect`, state transitions
* `src/metrics/binding.py`, `src/metrics/service.py` — Prometheus helpers

Counter values are modelled as `Int` (Python ints/floats flowing into
`AtomicCounter`), wall-clock timestamps as `Nat` (each tracking call takes
the current `time.time()` reading as an explicit argument).
-/

namespace Bridge

/-! ## `src/bindings/metrics.py` — `ConnectionState`, `MetricsCollector` -/

/-- Python enum `ConnectionState` of `src/bindings/metrics.py`. -/
inductive ConnectionState where
  | unknown
  | connected
  | disconnected
  | connecting
  | reconnecting
  deriving DecidableEq, Repr

/-- The mutable state of one `MetricsCollector` (`src/bindings/metrics.py`):
eight `AtomicCounter`s, the connection state, and the `last_*` timestamps
(`None` until the first matching tracking call). -/
structure CollectorState where
  messages_received_total : Int
  messages_received_volume : Int
  messages_sent_total : Int
  messages_sent_volume : Int
  errors_sent_total : Int
  errors_received_total : Int
  reconnection_attempts_total : Int
  reconnection_failures_total : Int
  connection_state : ConnectionState
  last_message_received_time : Option Nat
  last_message_sent_time : Option Nat
  last_error_received_time : Option Nat
  last_error_sent_time : Option Nat
  last_reconnection_time : Option Nat
  last_reconnection_error_time : Option Nat
  last_connection_time : Option Nat
  deriving DecidableEq, Repr

/-- A freshly constructed `MetricsCollector.__init__`: all `AtomicCounter`s
start at 0, `connection_state = DISCONNECTED`, every timestamp is `None`. -/
def CollectorState.init : CollectorState :=
  { messages_received_total := 0
    messages_received_volume := 0
    messages_sent_total := 0
    messages_sent_volume := 0
    errors_sent_total := 0
    errors_received_total := 0
    reconnection_attempts_total := 0
    reconnection_failures_total := 0
    connection_state := .disconnected
    last_message_received_time := none
    last_message_sent_time := none
    last_error_received_time := none
    last_error_sent_time := none
    last_reconnection_time := none
    last_reconnection_error_time := none
    last_connection_time := none }

/-- Method `AtomicCounter.add` (`src/utils/counter.py`): adds `amount` to the value,
except that when the result would be negative a `ValueError` is raised and the
stored value is left unchanged. -/
def counterAdd (value amount : Int) : Int :=
  if value + amount < 0 then value else value + amount

/-- Whether `AtomicCounter.add` raises (`new_value < 0` branch); when it does,
the statements following the `add` call in the tracking method do not run. -/
def counterAddRaises (value amount : Int) : Bool :=
  decide (value + amount < 0)

/-- Method `MetricsCollector.track_message_received(message_size)`: increment the
received counter, add `message_size` to the received volume, stamp
`last_message_received_time = time.time()` (`now`).  When the volume `add`
raises on a negative size, the timestamp line is not reached. -/
def trackMessageReceived (st : CollectorState) (messageSize : Int) (now : Nat) :
    CollectorState :=
  let st := { st with messages_received_total := st.messages_received_total + 1 }
  if counterAddRaises st.messages_received_volume messageSize then st
  else
    { st with
      messages_received_volume := counterAdd st.messages_received_volume messageSize
      last_message_received_time := some now }

/-- Method `MetricsCollector.track_message_sent(message_size)`. -/
def trackMessageSent (st : CollectorState) (messageSize : Int) (now : Nat) :
    CollectorState :=
  let st := { st with messages_sent_total := st.messages_sent_total + 1 }
  if counterAddRaises st.messages_sent_volume messageSize then st
  else
    { st with
      messages_sent_volume := counterAdd st.messages_sent_volume messageSize
      last_message_sent_time := some now }

/-- Method `MetricsCollector.track_error(category, message, is_send)`: only the
`is_send` flag affects the counters/timestamps. -/
def trackError (st : CollectorState) (isSend : Bool) (now : Nat) : CollectorState :=
  if isSend then
    { st with
      errors_sent_total := st.errors_sent_total + 1
      last_error_sent_time := some now }
  else
    { st with
      errors_received_total := st.errors_received_total + 1
      last_error_received_time := some now }

/-- Method `MetricsCollector.track_reconnection_attempt()`. -/
def trackReconnectionAttempt (st : CollectorState) (now : Nat) : CollectorState :=
  { st with
    reconnection_attempts_total := st.reconnection_attempts_total + 1
    last_reconnection_time := some now }

/-- Method `MetricsCollector.track_reconnection_failure()`. -/
def trackReconnectionFailure (st : CollectorState) (now : Nat) : CollectorState :=
  { st with
    reconnection_failures_total := st.reconnection_failures_total + 1
    last_reconnection_error_time := some now }

/-- Static method `BindingMetricsCollector.get_latest_timestamp(timestamp1, timestamp2)`. -/
def getLatestTimestamp : Option Nat → Option Nat → Option Nat
  | none, none => none
  | none, some t2 => some t2
  | some t1, none => some t1
  | some t1, some t2 => some (max t1 t2)

/-- The numeric/timestamp fields of the dictionary built by
`BindingMetricsCollector.get_metrics` (the `"name"` label, the
`format_timestamp` string renderings of the same timestamps, and the
`components` sub-dictionary echoing the two collectors are omitted). -/
structure BindingMetrics where
  messages_received_total : Int
  messages_received_volume : Int
  messages_sent_total : Int
  messages_sent_volume : Int
  errors_sent_total : Int
  errors_received_total : Int
  reconnection_attempts_total : Int
  reconnection_failures_total : Int
  last_message_received_timestamp : Option Nat
  last_message_sent_timestamp : Option Nat
  last_error_received_timestamp : Option Nat
  last_error_sent_timestamp : Option Nat
  last_reconnection_timestamp : Option Nat
  last_reconnection_error_timestamp : Option Nat
  deriving DecidableEq, Repr

/-- Method `BindingMetricsCollector.get_metrics`: per-binding roll-up of the source
and target collectors (`src/bindings/metrics.py`, lines 257–325). -/
def bindingGetMetrics (source target : CollectorState) : BindingMetrics :=
  { messages_received_total := source.messages_received_total
    messages_received_volume := source.messages_received_volume
    messages_sent_total := target.messages_sent_total
    messages_sent_volume := target.messages_sent_volume
    errors_sent_total := target.errors_sent_total
    errors_received_total := source.errors_received_total
    reconnection_attempts_total :=
      source.reconnection_attempts_total + target.reconnection_attempts_total
    reconnection_failures_total :=
      source.reconnection_failures_total + target.reconnection_failures_total
    last_message_received_timestamp := source.last_message_received_time
    last_message_sent_timestamp := target.last_message_sent_time
    last_error_received_timestamp := source.last_error_received_time
    last_error_sent_timestamp := target.last_error_sent_time
    last_reconnection_timestamp :=
      getLatestTimestamp source.last_reconnection_time target.last_reconnection_time
    last_reconnection_error_timestamp :=
      getLatestTimestamp source.last_reconnection_error_time
        target.last_reconnection_error_time }

/-! ## `src/bindings/retry.py` — `RetryWrapper.__call__` -/

/-- Result of running the wrapper returned by `RetryWrapper.__call__`:
either the wrapped value, the exception raised after exhausting the
attempts, or the `AssertionError` of the dead-code tail (reachable only
when `max_retries < 1`, since then `range(1, max_retries + 1)` is empty). -/
inductive RetryResult (E A : Type) where
  | ok (a : A)
  | err (e : E)
  | assertFailed
  deriving DecidableEq, Repr

/-- Run of the retry loop `for attempt in range(1, max_retries + 1)` with
`remaining` iterations left, invoking `op attempt` each round.  Returns the
result together with the number of invocations of `op` and the number of
`asyncio.sleep(delay_seconds)` calls performed.  On failure with
`attempt >= max_retries` (i.e. `remaining = 0` after this round) the last
exception is re-raised; otherwise the wrapper sleeps once and retries. -/
def retryGo {E A : Type} (op : Nat → Except E A) (attempt : Nat) :
    Nat → RetryResult E A × Nat × Nat
  | 0 => (.assertFailed, 0, 0)
  | remaining + 1 =>
    match op attempt with
    | .ok a => (.ok a, 1, 0)
    | .error e =>
      if remaining = 0 then (.err e, 1, 0)
      else
        let r := retryGo op (attempt + 1) remaining
        (r.1, r.2.1 + 1, r.2.2 + 1)

/-- The wrapper produced by `RetryWrapper.__call__` with
`max_retries = maxRetries`: attempts start at 1 and at most `maxRetries`
iterations run. -/
def retryCall {E A : Type} (maxRetries : Nat) (op : Nat → Except E A) :
    RetryResult E A × Nat × Nat :=
  retryGo op 1 maxRetries


/-! ## `src/kubemq/client.py` — poll loop per-message handling, send task -/

/-- Acknowledgement decision taken by the KubeMQ poll loop for one message
(`message.ack()` versus `message.reject()`). -/
inductive AckAction where
  | ack
  | reject
  deriving DecidableEq, Repr

/-- Conversion of a retry-wrapper outcome into the outcome observed by the
poll loop that invoked the wrapped sink as its callback: a propagated value,
a re-raised last exception, or the AssertionError of the dead-code tail. -/
def retryResultToCallback {E A : Type} : RetryResult E A → Except (Option E) A
  | .ok a => .ok a
  | .err e => .error (some e)
  | .assertFailed => .error none

/-- Per-message body of `KubeMQClient.poll._process`
(`src/kubemq/client.py`, lines 325–374): invoke the callback on the message
body; on success compute the body size and `track_message_received`, marking
the message processed; on a raised callback error `track_error` on the
receive side and mark it unprocessed.  The processed flag selects
`message.ack()` or `message.reject()`, and the polling loop then continues
(the returned `Bool`): a callback failure never breaks the `while` loop. -/
def kubemqHandleMessage {E : Type} (st : CollectorState) (body : Option (List Char))
    (cbResult : Except E Unit) (now : Nat) : CollectorState × AckAction × Bool :=
  match cbResult with
  | .ok _ =>
    let messageSize : Int := match body with
      | some b => (b.length : Int)
      | none => 0
    (trackMessageReceived st messageSize now, AckAction.ack, true)
  | .error _ => (trackError st false now, AckAction.reject, true)

/-- Inner task `KubeMQClient.send_message._send_message`
(`src/kubemq/client.py`, lines 423–471): on a completed broker call,
`track_message_sent(len(message))` runs before the `result.is_error` check,
and a flagged error result additionally tracks a send error; a raised
exception only tracks a send error.  `outcome` is `.ok isError` for a
returned result and `.error msg` for a raised exception. -/
def kubemqSendTask (st : CollectorState) (message : List Char)
    (outcome : Except String Bool) (now : Nat) : CollectorState :=
  match outcome with
  | .ok isError =>
    let st := trackMessageSent st (message.length : Int) now
    if isError then trackError st true now else st
  | .error _ => trackError st true now

/-! ## `src/ibm_mq/client.py` — XML extraction, poll handling, reconnect -/

/-- Python `str.find(pattern)` on the decoded message text: index of the
first occurrence of `pattern`, or `None` standing for the `-1` miss. -/
def strFind (s pattern : List Char) : Option Nat :=
  if pattern.isPrefixOf s then some 0
  else
    match s with
    | [] => none
    | _ :: t => (strFind t pattern).map (· + 1)

/-- Marker string used by `IBMMQClient.extract_xml_payload`. -/
def xmlMarker : List Char := String.toList ("<?xml")

/-- Method `IBMMQClient.extract_xml_payload` (`src/ibm_mq/client.py`, lines
314–345): decode as text, find the first occurrence of the marker, and
return the suffix from there, or the original message when no marker occurs.
Payloads are modelled as the decoded text (the byte/str round trip of the
Python code is the identity on valid UTF-8 input). -/
def extractXmlPayload (message : List Char) : List Char :=
  match strFind message xmlMarker with
  | none => message
  | some i => message.drop i

/-- Per-message body of `IBMMQClient.poll._process`
(`src/ibm_mq/client.py`, lines 411–448): the received message is cleaned
with `extract_xml_payload` and handed to the callback; on callback success
`track_message_received(receive_duration_ms)` runs (the code passes the
measured receive duration, not the payload size); on callback failure
`track_error` on the receive side.  Returns the new collector state and the
payload that was handed to the callback. -/
def ibmHandleMessage {E : Type} (st : CollectorState) (message : List Char)
    (cbResult : Except E Unit) (receiveDurationMs : Int) (now : Nat) :
    CollectorState × List Char :=
  let cleaned := extractXmlPayload message
  match cbResult with
  | .ok _ => (trackMessageReceived st receiveDurationMs now, cleaned)
  | .error _ => (trackError st false now, cleaned)

/-- Python enum `BindingType` of `src/bindings/config.py` (it has exactly
these two members). -/
inductive BindingType where
  | kubemq_to_ibm_mq
  | ibm_mq_to_kubemq
  deriving DecidableEq, Repr

/-- Call `BindingType(tag)` in `BindingsConfig.load`: `none` models the
`ValueError` raised on an unsupported direction tag. -/
def parseBindingType : String → Option BindingType :=
  fun tag =>
    if tag = ("kubemq_to_ibm_mq") then some BindingType.kubemq_to_ibm_mq
    else if tag = ("ibm_mq_to_kubemq") then some BindingType.ibm_mq_to_kubemq
    else none

/-- One entry of the `bindings:` list of the YAML file, reduced to the
fields the supervisor init path inspects.  `name` and the two `queue_name`s
are `Option`s because the pydantic models default them to `None` when the
key is absent. -/
structure RawBinding where
  name : Option String
  typeTag : String
  sourceQueue : Option String
  targetQueue : Option String
  deriving DecidableEq, Repr

/-- A parsed `BindingConfig` as produced by `BindingsConfig.load`. -/
structure BindingConfig where
  name : Option String
  type : BindingType
  sourceQueue : Option String
  targetQueue : Option String
  deriving DecidableEq, Repr

/-- Startup failures of the supervisor init path.  `unsupportedType` is the
`ValueError("Error loading config file: ...")` raised by
`BindingsConfig.load`; the two missing-queue variants are the
`BindingConfigError`s raised by `Bindings.init`; `helperNameTypeError` is
the `TypeError` raised by `BindingMetricsHelper.__init__` when
`binding_name` is not a string; `clientCtorTypeError` is the `TypeError`
raised when `Binding.init` calls a client constructor with two arguments
(re-raised there as a `BindingConfigError`).  All of them abort init and
are re-raised by `Bindings.init` wrapped in a generic `Exception`. -/
inductive InitError where
  | unsupportedType (tag : String)
  | missingSourceQueue (bindingName : Option String)
  | missingTargetQueue (bindingName : Option String)
  | helperNameTypeError (bindingType queueName : String)
  | clientCtorTypeError (endpointKind : String)
  deriving DecidableEq, Repr

/-- Python truthiness test `if not queue_name` on an optional string:
`None` and the empty string are falsy. -/
def pyFalsyStr : Option String → Bool
  | none => true
  | some s => s.isEmpty

/-- Classmethod `BindingsConfig.load` (`src/bindings/config.py`, lines
32–55), restricted to the validation it performs on the fields modelled
here: every `type` tag must parse as a `BindingType`; nothing else is
checked (names and queue names pass through, defaulted to `None` when
absent). -/
def loadConfig (raw : List RawBinding) : Except InitError (List BindingConfig) :=
  match raw with
  | [] => Except.ok []
  | b :: rest =>
    match parseBindingType b.typeTag with
    | none => Except.error (InitError.unsupportedType b.typeTag)
    | some t =>
      match loadConfig rest with
      | Except.error e => Except.error e
      | Except.ok cfgs =>
        Except.ok ({ name := b.name, type := t, sourceQueue := b.sourceQueue,
                     targetQueue := b.targetQueue } :: cfgs)

/-- A constructed binding with its two endpoint clients, as appended to
`self.bindings` by `Bindings.init` after `Binding.init` constructed the
endpoint pair. -/
structure ConstructedBinding where
  name : Option String
  sourceType : String
  targetType : String
  sourceQueue : String
  targetQueue : String
  deriving DecidableEq, Repr

/-- Endpoint type tags chosen by the dispatch at the top of `Bindings.init`
(`src/bindings/bindings.py`, lines 25–43). -/
def bindingEndpointTypes : BindingType → String × String
  | BindingType.ibm_mq_to_kubemq => (("ibm_mq"), ("kubemq"))
  | BindingType.kubemq_to_ibm_mq => (("kubemq"), ("ibm_mq"))

/-- The binding `Bindings.init` would append once `Binding.init` returned:
the two endpoint clients with their type tags and queues. -/
def constructBinding (c : BindingConfig) : ConstructedBinding :=
  { name := c.name
    sourceType := (bindingEndpointTypes c.type).1
    targetType := (bindingEndpointTypes c.type).2
    sourceQueue := c.sourceQueue.getD ("")
    targetQueue := c.targetQueue.getD ("") }

/-- Constructor `BindingMetricsHelper.__init__` (`src/metrics/binding.py`,
lines 14–34): raises `TypeError` unless `binding_name`, `binding_type` and
`queue_name` are all strings.  `Bindings.init` passes the config name,
which pydantic defaults to `None` when the key is missing, and two string
tags/queues, so only the name can fail the check.  Returns the label
triple. -/
def mkBindingMetricsHelper (bindingName : Option String)
    (bindingType queueName : String) :
    Except InitError (String × String × String) :=
  match bindingName with
  | none => Except.error (InitError.helperNameTypeError bindingType queueName)
  | some n => Except.ok (n, bindingType, queueName)

/-- Arity of the client constructors in this tree: both
`KubeMQClient.__init__(self, config)` (`src/kubemq/client.py`, line 88) and
`IBMMQClient.__init__(self, config)` (`src/ibm_mq/client.py`, line 59)
accept exactly one argument besides `self`. -/
def clientCtorArity : Nat := 1

/-- Number of arguments `Binding.init` passes to each client constructor:
`source_client_cls(source_cfg, source_metrics_helper)`
(`src/bindings/binding.py`, lines 81 and 92) — two. -/
def bindingInitCtorArgs : Nat := 2

/-- Method `Binding.init` (`src/bindings/binding.py`, lines 23–96):
dispatch on the binding type, then construct the source client with
`(source_cfg, source_metrics_helper)`, catching any exception and
re-raising it as a `BindingConfigError`.  Because the constructors accept
only `config` the call raises `TypeError` on the source endpoint before
the target is ever attempted, so `init` raises and assigns no endpoint;
the success branch is the binding it would otherwise produce. -/
def bindingInit (c : BindingConfig) : Except InitError ConstructedBinding :=
  if bindingInitCtorArgs = clientCtorArity then Except.ok (constructBinding c)
  else Except.error (InitError.clientCtorTypeError ((bindingEndpointTypes c.type).1))

/-- Loop body of `Bindings.init` (`src/bindings/bindings.py`, lines 20–72):
for each binding config in order, dispatch on the type, raise
`BindingConfigError` when the source or target `queue_name` is falsy, then
construct the source and target `BindingMetricsHelper`s (which `TypeError`
on a `None` name), then construct the `Binding` and run `Binding.init`
(which always raises in this tree, see `bindingInit`), and only then append
it.  The first raise aborts the loop.  Returns the appended list and the
error, if any. -/
def bindingsInit : List BindingConfig → List ConstructedBinding × Option InitError
  | [] => ([], none)
  | c :: rest =>
    if pyFalsyStr c.sourceQueue then ([], some (InitError.missingSourceQueue c.name))
    else if pyFalsyStr c.targetQueue then ([], some (InitError.missingTargetQueue c.name))
    else
      match mkBindingMetricsHelper c.name (bindingEndpointTypes c.type).1
          (c.sourceQueue.getD ("")) with
      | Except.error e => ([], some e)
      | Except.ok _ =>
        match mkBindingMetricsHelper c.name (bindingEndpointTypes c.type).2
            (c.targetQueue.getD ("")) with
        | Except.error e => ([], some e)
        | Except.ok _ =>
          match bindingInit c with
          | Except.error e => ([], some e)
          | Except.ok b =>
            let r := bindingsInit rest
            (b :: r.1, r.2)

/-- The supervisor init path: `BindingsConfig.load` followed by
`Bindings.init`.  A load failure constructs nothing. -/
def supervisorInit (raw : List RawBinding) : List ConstructedBinding × Option InitError :=
  match loadConfig raw with
  | Except.error e => ([], some e)
  | Except.ok cfgs => bindingsInit cfgs


/-! ## `src/metrics/binding.py` and `src/metrics/service.py` -/

/-- A Python value as it may be passed to the `BindingMetricsHelper`
methods: an int, a bool, a string, `None`, or a float (its payload is
irrelevant to the guards). -/
inductive PyVal where
  | int (n : Int)
  | bool (b : Bool)
  | str (s : String)
  | pynone
  | float
  deriving DecidableEq, Repr

/-- Python `isinstance(v, int)`: true for ints and for bools (`bool` is a
subclass of `int` in Python). -/
def isInstInt : PyVal → Bool
  | .int _ => true
  | .bool _ => true
  | _ => false

/-- Python `isinstance(v, bool)`. -/
def isInstBool : PyVal → Bool
  | .bool _ => true
  | _ => false

/-- The integer value of a `PyVal` that passed `isinstance(v, int)`. -/
def pyToInt : PyVal → Int
  | .int n => n
  | .bool b => if b then 1 else 0
  | _ => 0

/-- The boolean value of a `PyVal` that passed `isinstance(v, bool)`. -/
def pyToBool : PyVal → Bool
  | .bool b => b
  | _ => false

/-- The Prometheus registry slots addressed by one `BindingMetricsHelper`
(one fixed label tuple): the `sent`/`received` series of
`total_messages_count`, `total_messages_volume`, `total_errors_count`, and
the `connection_status` gauge. -/
structure ServiceState where
  sent_count : Int
  received_count : Int
  sent_volume : Int
  received_volume : Int
  sent_errors : Int
  received_errors : Int
  connection_status : Int
  deriving DecidableEq, Repr

/-- Method `MetricsService.increment_message_count` (`src/metrics/service.py`,
lines 62–87): an invalid direction is warned about and ignored, otherwise the
labelled counter is incremented by `count`. -/
def svcIncrementMessageCount (st : ServiceState) (direction : String) (count : Int) :
    ServiceState :=
  if direction = ("sent") then { st with sent_count := st.sent_count + count }
  else if direction = ("received") then
    { st with received_count := st.received_count + count }
  else st

/-- Method `MetricsService.increment_message_volume` (lines 89–114). -/
def svcIncrementMessageVolume (st : ServiceState) (direction : String) (volume : Int) :
    ServiceState :=
  if direction = ("sent") then { st with sent_volume := st.sent_volume + volume }
  else if direction = ("received") then
    { st with received_volume := st.received_volume + volume }
  else st

/-- Method `MetricsService.increment_error_count` (lines 116–141). -/
def svcIncrementErrorCount (st : ServiceState) (direction : String) (count : Int) :
    ServiceState :=
  if direction = ("sent") then { st with sent_errors := st.sent_errors + count }
  else if direction = ("received") then
    { st with received_errors := st.received_errors + count }
  else st

/-- Method `MetricsService.set_connection_status` (lines 143–157): the gauge
is set to `int(status)`. -/
def svcSetConnectionStatus (st : ServiceState) (status : Bool) : ServiceState :=
  { st with connection_status := if status then 1 else 0 }

/-- Guard shared by the count/volume helper methods of
`BindingMetricsHelper`: `not isinstance(v, int) or v < 0` (short-circuit:
the comparison only runs on an int). -/
def badCountArg (v : PyVal) : Bool :=
  !isInstInt v || decide (pyToInt v < 0)

/-- Method `BindingMetricsHelper.increment_sent_message` (`src/metrics/binding.py`,
lines 36–49): on an invalid count, warn and return without touching the
service; otherwise increment the sent message count. -/
def helperIncrementSentMessage (st : ServiceState) (count : PyVal) : ServiceState :=
  if badCountArg count then st
  else svcIncrementMessageCount st ("sent") (pyToInt count)

/-- Method `BindingMetricsHelper.increment_received_message` (lines 51–64). -/
def helperIncrementReceivedMessage (st : ServiceState) (count : PyVal) : ServiceState :=
  if badCountArg count then st
  else svcIncrementMessageCount st ("received") (pyToInt count)

/-- Method `BindingMetricsHelper.increment_sent_volume` (lines 66–79). -/
def helperIncrementSentVolume (st : ServiceState) (volume : PyVal) : ServiceState :=
  if badCountArg volume then st
  else svcIncrementMessageVolume st ("sent") (pyToInt volume)

/-- Method `BindingMetricsHelper.increment_received_volume` (lines 81–94). -/
def helperIncrementReceivedVolume (st : ServiceState) (volume : PyVal) : ServiceState :=
  if badCountArg volume then st
  else svcIncrementMessageVolume st ("received") (pyToInt volume)

/-- Method `BindingMetricsHelper.increment_sent_message_and_volume`
(lines 96–126): the count guard runs first, then the volume guard; either
failure returns without any service call; otherwise both service calls run
sequentially. -/
def helperIncrementSentMessageAndVolume (st : ServiceState) (volume count : PyVal) :
    ServiceState :=
  if badCountArg count then st
  else if badCountArg volume then st
  else
    svcIncrementMessageVolume
      (svcIncrementMessageCount st ("sent") (pyToInt count)) ("sent") (pyToInt volume)

/-- Method `BindingMetricsHelper.increment_received_message_and_volume`
(lines 128–155). -/
def helperIncrementReceivedMessageAndVolume (st : ServiceState) (volume count : PyVal) :
    ServiceState :=
  if badCountArg count then st
  else if badCountArg volume then st
  else
    svcIncrementMessageVolume
      (svcIncrementMessageCount st ("received") (pyToInt count)) ("received")
      (pyToInt volume)

/-- Method `BindingMetricsHelper.increment_sent_error` (lines 157–170). -/
def helperIncrementSentError (st : ServiceState) (count : PyVal) : ServiceState :=
  if badCountArg count then st
  else svcIncrementErrorCount st ("sent") (pyToInt count)

/-- Method `BindingMetricsHelper.increment_received_error` (lines 172–185). -/
def helperIncrementReceivedError (st : ServiceState) (count : PyVal) : ServiceState :=
  if badCountArg count then st
  else svcIncrementErrorCount st ("received") (pyToInt count)

/-- Method `BindingMetricsHelper.set_connection_status` (lines 187–199): a
non-boolean status is warned about and ignored. -/
def helperSetConnectionStatus (st : ServiceState) (status : PyVal) : ServiceState :=
  if !isInstBool status then st
  else svcSetConnectionStatus st (pyToBool status)

/-! ## Traces of tracking operations (for the monotonicity claim) -/

/-- One invocation of a tracking method of `MetricsCollector`, with its
data argument. -/
inductive TrackOp where
  | msgReceived (size : Int)
  | msgSent (size : Int)
  | errorEvent (isSend : Bool)
  | reconnectAttempt
  | reconnectFailure
  deriving DecidableEq, Repr

/-- Application of one tracking operation at clock reading `now`. -/
def applyOp (st : CollectorState) : TrackOp → Nat → CollectorState
  | .msgReceived s, now => trackMessageReceived st s now
  | .msgSent s, now => trackMessageSent st s now
  | .errorEvent isSend, now => trackError st isSend now
  | .reconnectAttempt, now => trackReconnectionAttempt st now
  | .reconnectFailure, now => trackReconnectionFailure st now

/-- Application of a sequence of tracking operations, each paired with the
`time.time()` reading observed during that call. -/
def applyTrace (st : CollectorState) (tr : List (TrackOp × Nat)) : CollectorState :=
  tr.foldl (fun s p => applyOp s p.1 p.2) st

/-- Message sizes carried by a tracking operation are nonnegative (they are
`len(...)` byte counts or measured durations at every call site). -/
def opSizeOk : TrackOp → Bool
  | .msgReceived s => decide (0 ≤ s)
  | .msgSent s => decide (0 ≤ s)
  | .errorEvent _ => true
  | .reconnectAttempt => true
  | .reconnectFailure => true

/-- Order on optional timestamps: a missing timestamp precedes everything;
two present timestamps compare as numbers. -/
def tsLE : Option Nat → Option Nat → Bool
  | none, _ => true
  | some _, none => false
  | some a, some b => decide (a ≤ b)

/-- Pointwise order on collector states: every counter and every timestamp
of the first is at most the corresponding one of the second. -/
def CollectorState.le (s t : CollectorState) : Bool :=
  decide (s.messages_received_total ≤ t.messages_received_total) &&
  decide (s.messages_received_volume ≤ t.messages_received_volume) &&
  decide (s.messages_sent_total ≤ t.messages_sent_total) &&
  decide (s.messages_sent_volume ≤ t.messages_sent_volume) &&
  decide (s.errors_sent_total ≤ t.errors_sent_total) &&
  decide (s.errors_received_total ≤ t.errors_received_total) &&
  decide (s.reconnection_attempts_total ≤ t.reconnection_attempts_total) &&
  decide (s.reconnection_failures_total ≤ t.reconnection_failures_total) &&
  tsLE s.last_message_received_time t.last_message_received_time &&
  tsLE s.last_message_sent_time t.last_message_sent_time &&
  tsLE s.last_error_received_time t.last_error_received_time &&
  tsLE s.last_error_sent_time t.last_error_sent_time &&
  tsLE s.last_reconnection_time t.last_reconnection_time &&
  tsLE s.last_reconnection_error_time t.last_reconnection_error_time &&
  tsLE s.last_connection_time t.last_connection_time

/-- All timestamps of a collector state are at most `t`. -/
def tsBound (st : CollectorState) (t : Nat) : Bool :=
  tsLE st.last_message_received_time (some t) &&
  tsLE st.last_message_sent_time (some t) &&
  tsLE st.last_error_received_time (some t) &&
  tsLE st.last_error_sent_time (some t) &&
  tsLE st.last_reconnection_time (some t) &&
  tsLE st.last_reconnection_error_time (some t) &&
  tsLE st.last_connection_time (some t)


/-! ## Helper lemmas about the retry loop -/

/-- One failing round of the retry loop with at least one more round left:
the run is the run from the next attempt, with one more invocation and one
more sleep. -/
lemma retryGo_step {E A : Type} (op : Nat → Except E A) (att rem : Nat) (e0 : E)
    (hatt : op att = Except.error e0) (hrem : ¬ rem = 0) :
    retryGo op att (rem + 1) =
      ((retryGo op (att + 1) rem).1, (retryGo op (att + 1) rem).2.1 + 1,
        (retryGo op (att + 1) rem).2.2 + 1) := by
  simp [retryGo, hatt, hrem]

/-- When the first `d` attempts fail and attempt `att + d` succeeds, a run
with more than `d` iterations left returns the success value after `d + 1`
invocations and `d` sleeps. -/
lemma retryGo_ok {E A : Type} (op : Nat → Except E A) (a : A) :
    ∀ (d att rem : Nat),
      (∀ i, att ≤ i → i < att + d → ∃ e0, op i = Except.error e0) →
      op (att + d) = Except.ok a → d < rem →
      retryGo op att rem = (RetryResult.ok a, d + 1, d) := by
  intro d
  induction d with
  | zero =>
    intro att rem hfail hsucc hlt
    obtain ⟨r, rfl⟩ : ∃ r, rem = r + 1 := ⟨rem - 1, by omega⟩
    rw [Nat.add_zero] at hsucc
    simp [retryGo, hsucc]
  | succ d ih =>
    intro att rem hfail hsucc hlt
    obtain ⟨r, rfl⟩ : ∃ r, rem = r + 1 := ⟨rem - 1, by omega⟩
    obtain ⟨e0, he0⟩ := hfail att (Nat.le_refl _) (by omega)
    have hr : ¬ r = 0 := by omega
    have hsucc1 : op (att + 1 + d) = Except.ok a := by
      rw [show att + 1 + d = att + (d + 1) by omega]
      exact hsucc
    have ihr := ih (att + 1) r
      (fun i h1 h2 => hfail i (by omega) (by omega)) hsucc1 (by omega)
    rw [retryGo_step op att r e0 he0 hr, ihr]

/-- When every attempt in the window fails, the run re-raises the error of
the last attempt after `r + 1` invocations and `r` sleeps. -/
lemma retryGo_err {E A : Type} (op : Nat → Except E A) (e : Nat → E) :
    ∀ (r att : Nat),
      (∀ i, att ≤ i → i ≤ att + r → op i = Except.error (e i)) →
      retryGo op att (r + 1) = (RetryResult.err (e (att + r)), r + 1, r) := by
  intro r
  induction r with
  | zero =>
    intro att h
    have hatt := h att (Nat.le_refl _) (by omega)
    simp [retryGo, hatt]
  | succ r ih =>
    intro att h
    have hatt := h att (Nat.le_refl _) (by omega)
    have ihr := ih (att + 1) (fun i h1 h2 => h i (by omega) (by omega))
    have harith : att + 1 + r = att + (r + 1) := by omega
    rw [harith] at ihr
    rw [retryGo_step op att (r + 1) (e att) hatt (Nat.succ_ne_zero r), ihr]

/-- C2: for a wrapped operation that fails exactly `k` times and then
succeeds, the retry wrapper with `max_retries = N ≥ 1` returns the success
value iff `k < N`; in that case it performs exactly `k + 1` invocations and
`k` sleeps of `delay_seconds` (none before the first attempt); after `N`
consecutive failures it raises the error of the last attempt. -/
theorem retry_wrapper_semantics {E A : Type} (N k : Nat) (op : Nat → Except E A)
    (e : Nat → E) (a : A)
    (hN : 1 ≤ N)
    (hfail : ∀ i, 1 ≤ i → i ≤ k → op i = Except.error (e i))
    (hsucc : op (k + 1) = Except.ok a) :
    ((retryCall N op).1 = RetryResult.ok a ↔ k < N) ∧
    (k < N → retryCall N op = (RetryResult.ok a, k + 1, k)) ∧
    (N ≤ k → retryCall N op = (RetryResult.err (e N), N, N - 1)) := by
  have hok : k < N → retryCall N op = (RetryResult.ok a, k + 1, k) := by
    intro hkN
    have := retryGo_ok op a k 1 N
      (fun i h1 h2 => ⟨e i, hfail i h1 (by omega)⟩)
      (by rw [Nat.add_comm]; exact hsucc) hkN
    exact this
  have herr : N ≤ k → retryCall N op = (RetryResult.err (e N), N, N - 1) := by
    intro hNk
    have := retryGo_err op e (N - 1) 1
      (fun i h1 h2 => hfail i h1 (by omega))
    rw [show 1 + (N - 1) = N by omega] at this
    rw [show (N - 1) + 1 = N by omega] at this
    exact this
  refine ⟨⟨?_, fun h => by rw [hok h]⟩, hok, herr⟩
  intro h1
  by_contra hk
  push_neg at hk
  rw [herr hk] at h1
  exact RetryResult.noConfusion h1

/-- Witness for C2: three allowed attempts, one failure then success: the
wrapper returns the success value after 2 invocations and 1 sleep. -/
theorem retry_wrapper_semantics_witness :
    retryCall 3 (fun i => if i = 1 then Except.error ("boom") else Except.ok 42) =
      (RetryResult.ok 42, 2, 1) := by
  have h := retry_wrapper_semantics 3 1
    (fun i => if i = 1 then Except.error ("boom") else Except.ok 42)
    (fun _ => ("boom")) 42 (by omega)
    (fun i h1 h2 => by
      have hi : i = 1 := by omega
      subst hi
      rfl)
    rfl
  exact h.2.1 (by omega)

/-- C1: when the retry-wrapped target sink fails on every one of its `N`
allowed attempts, the wrapper propagates the last error to the KubeMQ poll
loop, which rejects (negatively acknowledges) the message and keeps
polling; in general the poll loop acknowledges a message iff the callback
(the wrapped sink) returned success for it. -/
theorem retry_failure_rejects_ack_iff_success (N : Nat)
    (op : Nat → Except String Unit) (e : Nat → String)
    (st : CollectorState) (body : Option (List Char)) (now : Nat)
    (hN : 1 ≤ N)
    (hfail : ∀ i, 1 ≤ i → i ≤ N → op i = Except.error (e i)) :
    (retryCall N op).1 = RetryResult.err (e N) ∧
    ((kubemqHandleMessage st body (retryResultToCallback (retryCall N op).1) now).2 =
      (AckAction.reject, true)) ∧
    (∀ (E : Type) (cb : Except E Unit),
      ((kubemqHandleMessage st body cb now).2.1 = AckAction.ack ↔ cb = Except.ok ())) := by
  have herr : retryCall N op = (RetryResult.err (e N), N, N - 1) := by
    have := retryGo_err op e (N - 1) 1 (fun i h1 h2 => hfail i h1 (by omega))
    rw [show 1 + (N - 1) = N by omega] at this
    rw [show (N - 1) + 1 = N by omega] at this
    exact this
  refine ⟨by rw [herr], by rw [herr]; rfl, ?_⟩
  intro E cb
  cases cb with
  | ok u => cases u; simp [kubemqHandleMessage]
  | error err => simp [kubemqHandleMessage]

/-- Witness for C1: a sink failing both allowed attempts makes the poll
loop reject the message while the loop continues. -/
theorem retry_failure_rejects_witness :
    ((kubemqHandleMessage CollectorState.init (some (String.toList ("hello")))
        (retryResultToCallback
          (retryCall 2 (fun _ => (Except.error ("down") : Except String Unit))).1) 7).2 =
      (AckAction.reject, true)) ∧
    (retryCall 2 (fun _ => (Except.error ("down") : Except String Unit))).1 =
      RetryResult.err ("down") := by
  have h := retry_failure_rejects_ack_iff_success 2
    (fun _ => Except.error ("down")) (fun _ => ("down"))
    CollectorState.init (some (String.toList ("hello"))) 7
    (by omega) (fun i h1 h2 => rfl)
  exact ⟨h.2.1, h.1⟩

/-- C6: the per-binding roll-up takes the receive-side counters and
timestamps from the source collector and the send-side ones from the target
collector, sums the reconnection counters over both, and the
latest-timestamp function is `None` iff both inputs are `None` and
otherwise the maximum of the non-`None` inputs. -/
theorem binding_metrics_rollup (s t : CollectorState) :
    (bindingGetMetrics s t).messages_received_total = s.messages_received_total ∧
    (bindingGetMetrics s t).messages_received_volume = s.messages_received_volume ∧
    (bindingGetMetrics s t).messages_sent_total = t.messages_sent_total ∧
    (bindingGetMetrics s t).messages_sent_volume = t.messages_sent_volume ∧
    (bindingGetMetrics s t).errors_sent_total = t.errors_sent_total ∧
    (bindingGetMetrics s t).errors_received_total = s.errors_received_total ∧
    (bindingGetMetrics s t).reconnection_attempts_total =
      s.reconnection_attempts_total + t.reconnection_attempts_total ∧
    (bindingGetMetrics s t).reconnection_failures_total =
      s.reconnection_failures_total + t.reconnection_failures_total ∧
    (bindingGetMetrics s t).last_message_received_timestamp =
      s.last_message_received_time ∧
    (bindingGetMetrics s t).last_message_sent_timestamp = t.last_message_sent_time ∧
    (bindingGetMetrics s t).last_error_received_timestamp =
      s.last_error_received_time ∧
    (bindingGetMetrics s t).last_error_sent_timestamp = t.last_error_sent_time ∧
    (bindingGetMetrics s t).last_reconnection_timestamp =
      getLatestTimestamp s.last_reconnection_time t.last_reconnection_time ∧
    (bindingGetMetrics s t).last_reconnection_error_timestamp =
      getLatestTimestamp s.last_reconnection_error_time
        t.last_reconnection_error_time ∧
    (∀ a b : Option Nat, getLatestTimestamp a b = none ↔ a = none ∧ b = none) ∧
    (∀ x y : Nat, getLatestTimestamp (some x) (some y) = some (max x y)) ∧
    (∀ x : Nat, getLatestTimestamp (some x) none = some x) ∧
    (∀ y : Nat, getLatestTimestamp none (some y) = some y) := by
  refine ⟨rfl, rfl, rfl, rfl, rfl, rfl, rfl, rfl, rfl, rfl, rfl, rfl, rfl, rfl,
    ?_, fun x y => rfl, fun x => rfl, fun y => rfl⟩
  intro a b
  cases a <;> cases b <;> simp [getLatestTimestamp]

/-- C10: a count/volume argument that fails the guard
`isinstance(v, int) and v >= 0` makes each increment method return without
invoking the metrics service, and any non-boolean status (for example a
nonnegative integer) makes `set_connection_status` return without invoking
it, leaving every counter and the gauge unchanged. -/
theorem metrics_helper_invalid_args_frame (st : ServiceState) (v w u : PyVal)
    (hv : badCountArg v = true) (hu : isInstBool u = false) :
    helperIncrementSentMessage st v = st ∧
    helperIncrementReceivedMessage st v = st ∧
    helperIncrementSentVolume st v = st ∧
    helperIncrementReceivedVolume st v = st ∧
    helperIncrementSentError st v = st ∧
    helperIncrementReceivedError st v = st ∧
    helperIncrementSentMessageAndVolume st v w = st ∧
    helperIncrementSentMessageAndVolume st w v = st ∧
    helperIncrementReceivedMessageAndVolume st v w = st ∧
    helperIncrementReceivedMessageAndVolume st w v = st ∧
    helperSetConnectionStatus st u = st := by
  refine ⟨?_, ?_, ?_, ?_, ?_, ?_, ?_, ?_, ?_, ?_, ?_⟩
  · simp [helperIncrementSentMessage, hv]
  · simp [helperIncrementReceivedMessage, hv]
  · simp [helperIncrementSentVolume, hv]
  · simp [helperIncrementReceivedVolume, hv]
  · simp [helperIncrementSentError, hv]
  · simp [helperIncrementReceivedError, hv]
  · cases hw : badCountArg w <;>
      simp [helperIncrementSentMessageAndVolume, hv, hw]
  · cases hw : badCountArg w <;>
      simp [helperIncrementSentMessageAndVolume, hv, hw]
  · cases hw : badCountArg w <;>
      simp [helperIncrementReceivedMessageAndVolume, hv, hw]
  · cases hw : badCountArg w <;>
      simp [helperIncrementReceivedMessageAndVolume, hv, hw]
  · simp [helperSetConnectionStatus, hu]

/-- Witness for C10: a string count and a non-boolean, nonnegative-integer
status both leave a concrete service state untouched. -/
theorem metrics_helper_invalid_args_witness :
    helperIncrementSentMessage (⟨4, 3, 2, 1, 0, 0, 1⟩ : ServiceState)
      (PyVal.str ("nope")) = (⟨4, 3, 2, 1, 0, 0, 1⟩ : ServiceState) ∧
    helperSetConnectionStatus (⟨4, 3, 2, 1, 0, 0, 1⟩ : ServiceState)
      (PyVal.int 1) = (⟨4, 3, 2, 1, 0, 0, 1⟩ : ServiceState) := by
  have h := metrics_helper_invalid_args_frame (⟨4, 3, 2, 1, 0, 0, 1⟩ : ServiceState)
    (PyVal.str ("nope")) (PyVal.int 1) (PyVal.int 1) (by decide) (by decide)
  exact ⟨h.1, h.2.2.2.2.2.2.2.2.2.2⟩


/-! ## Helper lemmas about `str.find` -/

/-- A miss of `str.find` means the pattern occurs at no index. -/
lemma strFind_eq_none (pattern : List Char) :
    ∀ (s : List Char), strFind s pattern = none →
      ∀ i, ¬ pattern <+: s.drop i := by
  intro s
  induction s with
  | nil =>
    intro h i hpre
    simp only [strFind] at h
    by_cases hp : pattern.isPrefixOf ([] : List Char)
    · simp [hp] at h
    · rw [List.isPrefixOf_iff_prefix] at hp
      exact hp (by simpa using hpre)
  | cons c t ih =>
    intro h i hpre
    by_cases hp : pattern.isPrefixOf (c :: t)
    · simp [strFind, hp] at h
    · have ht : strFind t pattern = none := by
        simp only [strFind, hp, if_false] at h
        simpa using h
      cases i with
      | zero =>
        rw [List.isPrefixOf_iff_prefix] at hp
        exact hp (by simpa using hpre)
      | succ i0 =>
        exact ih ht i0 (by simpa using hpre)

/-- A hit of `str.find` is an occurrence of the pattern, and the least one. -/
lemma strFind_eq_some (pattern : List Char) :
    ∀ (s : List Char) (j : Nat), strFind s pattern = some j →
      pattern <+: s.drop j ∧ ∀ l, l < j → ¬ pattern <+: s.drop l := by
  intro s
  induction s with
  | nil =>
    intro j h
    simp only [strFind] at h
    by_cases hp : pattern.isPrefixOf ([] : List Char)
    · simp only [hp, if_true] at h
      obtain rfl : 0 = j := Option.some.inj h
      rw [List.isPrefixOf_iff_prefix] at hp
      exact ⟨by simpa using hp, fun l hl => absurd hl (by omega)⟩
    · simp [hp] at h
  | cons c t ih =>
    intro j h
    by_cases hp : pattern.isPrefixOf (c :: t)
    · simp only [strFind, hp, if_true] at h
      obtain rfl : 0 = j := Option.some.inj h
      rw [List.isPrefixOf_iff_prefix] at hp
      exact ⟨by simpa using hp, fun l hl => absurd hl (by omega)⟩
    · simp only [strFind, hp, if_false] at h
      obtain ⟨j0, hj0, rfl⟩ := Option.map_eq_some'.mp h
      obtain ⟨hocc, hmin⟩ := ih j0 hj0
      refine ⟨by simpa using hocc, ?_⟩
      intro l hl
      cases l with
      | zero =>
        rw [List.isPrefixOf_iff_prefix] at hp
        intro hc
        exact hp (by simpa using hc)
      | succ l0 =>
        intro hc
        exact hmin l0 (by omega) (by simpa using hc)

/-- C7: the payload the MQ-A (IBM MQ) poll loop hands to the callback is
`extract_xml_payload` of the received message; when the decoded text
contains the marker, that is the suffix starting at the first occurrence
of the marker, and otherwise the message unchanged. -/
theorem xml_extraction_first_marker {E : Type} (message : List Char)
    (st : CollectorState) (cb : Except E Unit) (d : Int) (now : Nat) :
    (ibmHandleMessage st message cb d now).2 = extractXmlPayload message ∧
    (strFind message xmlMarker = none →
      extractXmlPayload message = message ∧
      ∀ i, ¬ xmlMarker <+: message.drop i) ∧
    (∀ j, strFind message xmlMarker = some j →
      extractXmlPayload message = message.drop j ∧
      xmlMarker <+: message.drop j ∧
      ∀ l, l < j → ¬ xmlMarker <+: message.drop l) := by
  refine ⟨by cases cb <;> rfl, ?_, ?_⟩
  · intro h
    refine ⟨?_, strFind_eq_none xmlMarker message h⟩
    simp [extractXmlPayload, h]
  · intro j hj
    obtain ⟨hocc, hmin⟩ := strFind_eq_some xmlMarker message j hj
    exact ⟨by simp [extractXmlPayload, hj], hocc, hmin⟩

/-- Witness for C7: a message with two leading framing characters is
trimmed to the suffix starting at the first `<?xml`. -/
theorem xml_extraction_witness :
    strFind (String.toList ("ab<?xml q")) xmlMarker = some 2 ∧
    extractXmlPayload (String.toList ("ab<?xml q")) =
      (String.toList ("ab<?xml q")).drop 2 ∧
    xmlMarker <+: (String.toList ("ab<?xml q")).drop 2 := by
  have h := (xml_extraction_first_marker (E := Unit) (String.toList ("ab<?xml q"))
    CollectorState.init (Except.ok ()) 0 0).2.2 2 (by decide)
  exact ⟨by decide, h.1, h.2.1⟩

/-- C5 (code bug): in the happy-path scenario the MQ-A (IBM MQ) source
adapter passes the measured receive duration, not the payload byte size,
to `track_message_received`; a 5-byte `"hello"` received in 200 ms leaves
`messages_received_volume = 200`, not 5, while the MQ-B (KubeMQ) adapter
counts the byte size on both sides as the claim requires. -/
theorem happy_path_volume_code_bug :
    ((ibmHandleMessage (E := Unit) CollectorState.init (String.toList ("hello"))
        (Except.ok ()) 200 3).1.messages_received_total = 1) ∧
    ((ibmHandleMessage (E := Unit) CollectorState.init (String.toList ("hello"))
        (Except.ok ()) 200 3).1.messages_received_volume = 200) ∧
    (String.toList ("hello")).length = 5 ∧
    ¬ ((ibmHandleMessage (E := Unit) CollectorState.init (String.toList ("hello"))
        (Except.ok ()) 200 3).1.messages_received_volume = 5) ∧
    ((kubemqHandleMessage (E := Unit) CollectorState.init
        (some (String.toList ("hello"))) (Except.ok ()) 3).1.messages_received_total = 1) ∧
    ((kubemqHandleMessage (E := Unit) CollectorState.init
        (some (String.toList ("hello"))) (Except.ok ()) 3).1.messages_received_volume = 5) ∧
    ((kubemqHandleMessage (E := Unit) CollectorState.init
        (some (String.toList ("hello"))) (Except.ok ()) 3).2.1 = AckAction.ack) ∧
    ((kubemqSendTask CollectorState.init (String.toList ("hello"))
        (Except.ok false) 4).messages_sent_total = 1) ∧
    ((kubemqSendTask CollectorState.init (String.toList ("hello"))
        (Except.ok false) 4).messages_sent_volume = 5) := by
  decide

/-! ## Supervisor init (C4) -/

lemma bindingInit_fails (c : BindingConfig) :
    bindingInit c =
      Except.error (InitError.clientCtorTypeError ((bindingEndpointTypes c.type).1)) :=
  rfl

/-- The init loop on a nonempty config list appends nothing and fails:
each binding is stopped by a queue check, by the helper name `TypeError`,
or by the client constructor `TypeError` raised inside `Binding.init`. -/
lemma bindingsInit_cons (c : BindingConfig) (rest : List BindingConfig) :
    (bindingsInit (c :: rest)).1 = [] ∧ (bindingsInit (c :: rest)).2 ≠ none := by
  cases h1 : pyFalsyStr c.sourceQueue with
  | true => simp [bindingsInit, h1]
  | false =>
    cases h2 : pyFalsyStr c.targetQueue with
    | true => simp [bindingsInit, h1, h2]
    | false =>
      cases hn : c.name with
      | none => simp [bindingsInit, h1, h2, hn, mkBindingMetricsHelper]
      | some n =>
        simp [bindingsInit, h1, h2, hn, mkBindingMetricsHelper, bindingInit,
          bindingInitCtorArgs, clientCtorArity]

lemma supervisorInit_fst (raw : List RawBinding) : (supervisorInit raw).1 = [] := by
  cases hl : loadConfig raw with
  | error e => simp [supervisorInit, hl]
  | ok cfgs =>
    cases cfgs with
    | nil => simp [supervisorInit, hl, bindingsInit]
    | cons c rest =>
      simp only [supervisorInit, hl]
      exact (bindingsInit_cons c rest).1

lemma supervisorInit_none_iff (raw : List RawBinding) :
    ((supervisorInit raw).2 = none ↔ raw = []) := by
  cases raw with
  | nil => simp [supervisorInit, loadConfig, bindingsInit]
  | cons b rest =>
    simp only [supervisorInit]
    cases hp : parseBindingType b.typeTag with
    | none => simp [loadConfig, hp]
    | some t =>
      cases hl : loadConfig rest with
      | error e => simp [loadConfig, hp, hl]
      | ok cfgs =>
        simp only [loadConfig, hp, hl]
        have h := (bindingsInit_cons
          (⟨b.name, t, b.sourceQueue, b.targetQueue⟩ : BindingConfig) cfgs).2
        simp [h]

/-- C4: for every configuration, supervisor init fails whenever any binding
has a missing name, a duplicate name, an unsupported direction tag or a
missing source/target `queue_name`, and when init fails no endpoints have
been constructed.  In this source tree the conclusion holds in its
strongest form — init succeeds only on an empty binding list and never
constructs an endpoint — because unsupported tags and falsy queue names are
rejected by the explicit checks, a `None` name makes
`BindingMetricsHelper.__init__` raise `TypeError`, and for every remaining
binding `Binding.init` raises `TypeError` by passing
`(config, metrics_helper)` to client constructors that accept only
`config`. -/
theorem supervisor_init_validation (raw : List RawBinding) :
    (supervisorInit raw).1 = [] ∧
    ((supervisorInit raw).2 = none ↔ raw = []) ∧
    (∀ b ∈ raw,
      (b.name = none ∨ parseBindingType b.typeTag = none ∨
        pyFalsyStr b.sourceQueue = true ∨ pyFalsyStr b.targetQueue = true) →
      ((supervisorInit raw).2 ≠ none ∧ (supervisorInit raw).1 = [])) ∧
    ((∃ i j : Nat, ∃ hi : i < raw.length, ∃ hj : j < raw.length,
        i ≠ j ∧ (raw.get ⟨i, hi⟩).name = (raw.get ⟨j, hj⟩).name) →
      ((supervisorInit raw).2 ≠ none ∧ (supervisorInit raw).1 = [])) := by
  have hfst := supervisorInit_fst raw
  have hiff := supervisorInit_none_iff raw
  refine ⟨hfst, hiff, ?_, ?_⟩
  · intro b hb _
    refine ⟨?_, hfst⟩
    intro hnone
    rw [hiff.mp hnone] at hb
    exact (List.not_mem_nil b) hb
  · rintro ⟨i, j, hi, hj, _, _⟩
    refine ⟨?_, hfst⟩
    intro hnone
    rw [hiff.mp hnone] at hi
    simp at hi

/-- Witness for C4: a binding with a missing name makes init fail, with no
endpoint constructed. -/
theorem supervisor_init_validation_witness :
    ((supervisorInit
        [(⟨none, ("kubemq_to_ibm_mq"), some ("q1"), some ("q2")⟩ : RawBinding)]).2
      ≠ none) ∧
    ((supervisorInit
        [(⟨none, ("kubemq_to_ibm_mq"), some ("q1"), some ("q2")⟩ : RawBinding)]).1
      = []) :=
  (supervisor_init_validation
      [(⟨none, ("kubemq_to_ibm_mq"), some ("q1"), some ("q2")⟩ : RawBinding)]).2.2.1
    _ (List.mem_cons_self _ _) (Or.inl rfl)

/-! ## Reconnection policy (C8) -/

lemma tsLE_refl (a : Option Nat) : tsLE a a = true := by
  cases a <;> simp [tsLE]

lemma tsLE_trans {a b c : Option Nat} (h1 : tsLE a b = true) (h2 : tsLE b c = true) :
    tsLE a c = true := by
  cases a <;> cases b <;> cases c <;> simp_all [tsLE]
  all_goals omega

lemma collectorLE_refl (s : CollectorState) : CollectorState.le s s = true := by
  simp [CollectorState.le, tsLE_refl]

lemma collectorLE_trans {a b c : CollectorState}
    (h1 : CollectorState.le a b = true) (h2 : CollectorState.le b c = true) :
    CollectorState.le a c = true := by
  simp only [CollectorState.le, Bool.and_eq_true, decide_eq_true_eq, and_assoc]
    at h1 h2 ⊢
  obtain ⟨p1, p2, p3, p4, p5, p6, p7, p8, q1, q2, q3, q4, q5, q6, q7⟩ := h1
  obtain ⟨r1, r2, r3, r4, r5, r6, r7, r8, u1, u2, u3, u4, u5, u6, u7⟩ := h2
  exact ⟨by omega, by omega, by omega, by omega, by omega, by omega, by omega,
    by omega, tsLE_trans q1 u1, tsLE_trans q2 u2, tsLE_trans q3 u3,
    tsLE_trans q4 u4, tsLE_trans q5 u5, tsLE_trans q6 u6, tsLE_trans q7 u7⟩

lemma tsBound_mono {st : CollectorState} {t0 t1 : Nat}
    (h : tsBound st t0 = true) (ht : t0 ≤ t1) : tsBound st t1 = true := by
  simp only [tsBound, Bool.and_eq_true, and_assoc] at h ⊢
  obtain ⟨a1, a2, a3, a4, a5, a6, a7⟩ := h
  have hts : tsLE (some t0) (some t1) = true := by simp [tsLE, ht]
  exact ⟨tsLE_trans a1 hts, tsLE_trans a2 hts, tsLE_trans a3 hts,
    tsLE_trans a4 hts, tsLE_trans a5 hts, tsLE_trans a6 hts, tsLE_trans a7 hts⟩

lemma init_tsBound (t : Nat) : tsBound CollectorState.init t = true := rfl

/-- Every tracking operation with a nonnegative size argument moves the
collector state upward in the pointwise order, provided all stored
timestamps are at most the current clock reading. -/
lemma applyOp_mono (st : CollectorState) (op : TrackOp) (t : Nat)
    (hop : opSizeOk op = true) (hb : tsBound st t = true) :
    CollectorState.le st (applyOp st op t) = true := by
  simp only [tsBound, Bool.and_eq_true, and_assoc] at hb
  obtain ⟨b1, b2, b3, b4, b5, b6, b7⟩ := hb
  cases op with
  | msgReceived sz =>
    simp only [opSizeOk, decide_eq_true_eq] at hop
    simp only [applyOp, trackMessageReceived, counterAddRaises, counterAdd]
    split
    all_goals
      simp only [CollectorState.le, Bool.and_eq_true, decide_eq_true_eq, and_assoc]
      refine ⟨?_, ?_, ?_, ?_, ?_, ?_, ?_, ?_, ?_, ?_, ?_, ?_, ?_, ?_, ?_⟩ <;>
        first
          | omega
          | exact tsLE_refl _
          | assumption
  | msgSent sz =>
    simp only [opSizeOk, decide_eq_true_eq] at hop
    simp only [applyOp, trackMessageSent, counterAddRaises, counterAdd]
    split
    all_goals
      simp only [CollectorState.le, Bool.and_eq_true, decide_eq_true_eq, and_assoc]
      refine ⟨?_, ?_, ?_, ?_, ?_, ?_, ?_, ?_, ?_, ?_, ?_, ?_, ?_, ?_, ?_⟩ <;>
        first
          | omega
          | exact tsLE_refl _
          | assumption
  | errorEvent isSend =>
    cases isSend <;>
      (simp only [applyOp, trackError, Bool.false_eq_true, if_false, if_true,
        CollectorState.le, Bool.and_eq_true, decide_eq_true_eq, and_assoc]
       refine ⟨?_, ?_, ?_, ?_, ?_, ?_, ?_, ?_, ?_, ?_, ?_, ?_, ?_, ?_, ?_⟩ <;>
        first
          | omega
          | exact tsLE_refl _
          | assumption)
  | reconnectAttempt =>
    simp only [applyOp, trackReconnectionAttempt, CollectorState.le,
      Bool.and_eq_true, decide_eq_true_eq, and_assoc]
    refine ⟨?_, ?_, ?_, ?_, ?_, ?_, ?_, ?_, ?_, ?_, ?_, ?_, ?_, ?_, ?_⟩ <;>
      first
        | omega
        | exact tsLE_refl _
        | assumption
  | reconnectFailure =>
    simp only [applyOp, trackReconnectionFailure, CollectorState.le,
      Bool.and_eq_true, decide_eq_true_eq, and_assoc]
    refine ⟨?_, ?_, ?_, ?_, ?_, ?_, ?_, ?_, ?_, ?_, ?_, ?_, ?_, ?_, ?_⟩ <;>
      first
        | omega
        | exact tsLE_refl _
        | assumption

/-- A tracking operation at clock reading `t ≤ T` keeps all timestamps
bounded by `T`. -/
lemma applyOp_bound (st : CollectorState) (op : TrackOp) (t T : Nat)
    (hb : tsBound st T = true) (ht : t ≤ T) :
    tsBound (applyOp st op t) T = true := by
  simp only [tsBound, Bool.and_eq_true, and_assoc] at hb
  obtain ⟨b1, b2, b3, b4, b5, b6, b7⟩ := hb
  have hts : tsLE (some t) (some T) = true := by simp [tsLE, ht]
  cases op with
  | msgReceived sz =>
    simp only [applyOp, trackMessageReceived, counterAddRaises, counterAdd]
    split
    all_goals
      simp only [tsBound, Bool.and_eq_true, and_assoc]
      refine ⟨?_, ?_, ?_, ?_, ?_, ?_, ?_⟩ <;> assumption
  | msgSent sz =>
    simp only [applyOp, trackMessageSent, counterAddRaises, counterAdd]
    split
    all_goals
      simp only [tsBound, Bool.and_eq_true, and_assoc]
      refine ⟨?_, ?_, ?_, ?_, ?_, ?_, ?_⟩ <;> assumption
  | errorEvent isSend =>
    cases isSend <;>
      (simp only [applyOp, trackError, Bool.false_eq_true, if_false, if_true,
        tsBound, Bool.and_eq_true, and_assoc]
       refine ⟨?_, ?_, ?_, ?_, ?_, ?_, ?_⟩ <;> assumption)
  | reconnectAttempt =>
    simp only [applyOp, trackReconnectionAttempt, tsBound, Bool.and_eq_true,
      and_assoc]
    refine ⟨?_, ?_, ?_, ?_, ?_, ?_, ?_⟩ <;> assumption
  | reconnectFailure =>
    simp only [applyOp, trackReconnectionFailure, tsBound, Bool.and_eq_true,
      and_assoc]
    refine ⟨?_, ?_, ?_, ?_, ?_, ?_, ?_⟩ <;> assumption

lemma applyTrace_bound :
    ∀ (tr : List (TrackOp × Nat)) (st : CollectorState) (T : Nat),
      tsBound st T = true → (∀ p ∈ tr, p.2 ≤ T) →
      tsBound (applyTrace st tr) T = true := by
  intro tr
  induction tr with
  | nil =>
    intro st T h _
    simpa [applyTrace] using h
  | cons p rest ih =>
    intro st T h hall
    have hp : p.2 ≤ T := hall p (List.mem_cons_self p rest)
    have h1 := applyOp_bound st p.1 p.2 T h hp
    have h2 := ih (applyOp st p.1 p.2) T h1
      (fun q hq => hall q (List.mem_cons_of_mem p hq))
    simpa [applyTrace] using h2

lemma applyTrace_mono :
    ∀ (tr : List (TrackOp × Nat)) (st : CollectorState) (t0 : Nat),
      tsBound st t0 = true → (∀ p ∈ tr, opSizeOk p.1 = true) →
      (∀ p ∈ tr, t0 ≤ p.2) →
      List.Pairwise (fun a b : TrackOp × Nat => a.2 ≤ b.2) tr →
      CollectorState.le st (applyTrace st tr) = true := by
  intro tr
  induction tr with
  | nil =>
    intro st t0 _ _ _ _
    simpa [applyTrace] using collectorLE_refl st
  | cons p rest ih =>
    intro st t0 hb hsz ht hpw
    have hb1 : tsBound st p.2 = true :=
      tsBound_mono hb (ht p (List.mem_cons_self p rest))
    have hle1 := applyOp_mono st p.1 p.2 (hsz p (List.mem_cons_self p rest)) hb1
    have hbound1 := applyOp_bound st p.1 p.2 p.2 hb1 (Nat.le_refl _)
    rcases List.pairwise_cons.mp hpw with ⟨hhead, hrest⟩
    have hle2 := ih (applyOp st p.1 p.2) p.2 hbound1
      (fun q hq => hsz q (List.mem_cons_of_mem p hq))
      (fun q hq => hhead q hq) hrest
    have h := collectorLE_trans hle1 hle2
    simpa [applyTrace] using h

/-- C9: over any trace of tracking operations with nonnegative size
arguments and nondecreasing clock readings, every counter and every
`last_*` timestamp of the collector after any later prefix dominates its
value after any earlier prefix: counters are monotone nondecreasing and
each timestamp is at least every previously observed value of itself. -/
theorem collector_metrics_monotone (tr : List (TrackOp × Nat)) (j i : Nat)
    (hsz : ∀ p ∈ tr, opSizeOk p.1 = true)
    (hmono : List.Pairwise (fun a b : TrackOp × Nat => a.2 ≤ b.2) tr)
    (hji : j ≤ i) :
    CollectorState.le (applyTrace CollectorState.init (tr.take j))
      (applyTrace CollectorState.init (tr.take i)) = true := by
  have hsplit : tr.take j ++ (tr.take i).drop j = tr.take i := by
    rw [show tr.take j = (tr.take i).take j by
      rw [List.take_take, Nat.min_eq_left hji]]
    exact List.take_append_drop j (tr.take i)
  have happ : applyTrace CollectorState.init (tr.take i) =
      applyTrace (applyTrace CollectorState.init (tr.take j))
        ((tr.take i).drop j) := by
    conv_lhs => rw [← hsplit]
    simp [applyTrace, List.foldl_append]
  rw [happ]
  cases hsuf : (tr.take i).drop j with
  | nil =>
    simpa [applyTrace] using collectorLE_refl (applyTrace CollectorState.init (tr.take j))
  | cons q qs =>
    rw [← hsuf]
    have hpw_take : List.Pairwise (fun a b : TrackOp × Nat => a.2 ≤ b.2) (tr.take i) :=
      List.Pairwise.sublist (List.take_sublist i tr) hmono
    have hpw_split := List.pairwise_append.mp (by rw [hsplit]; exact hpw_take)
    have hq_mem : q ∈ (tr.take i).drop j := by
      rw [hsuf]
      exact List.mem_cons_self q qs
    have hbound_pre :
        tsBound (applyTrace CollectorState.init (tr.take j)) q.2 = true := by
      apply applyTrace_bound (tr.take j) CollectorState.init q.2 (init_tsBound q.2)
      intro p hp
      exact hpw_split.2.2 p hp q hq_mem
    have hsz_suf : ∀ p ∈ (tr.take i).drop j, opSizeOk p.1 = true := by
      intro p hp
      exact hsz p (List.take_subset i tr (List.drop_subset j (tr.take i) hp))
    have ht_suf : ∀ p ∈ (tr.take i).drop j, q.2 ≤ p.2 := by
      intro p hp
      rw [hsuf] at hp
      rcases List.mem_cons.mp hp with h | h
      · rw [h]
      · have hpq : List.Pairwise (fun a b : TrackOp × Nat => a.2 ≤ b.2) (q :: qs) := by
          rw [← hsuf]
          exact hpw_split.2.1
        exact (List.pairwise_cons.mp hpq).1 p h
    exact applyTrace_mono ((tr.take i).drop j)
      (applyTrace CollectorState.init (tr.take j)) q.2
      hbound_pre hsz_suf ht_suf hpw_split.2.1

/-- Witness for C9: a two-step trace, comparing the states after the first
and after both operations. -/
theorem collector_metrics_monotone_witness :
    CollectorState.le
      (applyTrace CollectorState.init
        (([((TrackOp.msgReceived 5), 3), (TrackOp.reconnectAttempt, 4)]).take 1))
      (applyTrace CollectorState.init
        (([((TrackOp.msgReceived 5), 3), (TrackOp.reconnectAttempt, 4)]).take 2)) =
      true :=
  collector_metrics_monotone
    ([((TrackOp.msgReceived 5), 3), (TrackOp.reconnectAttempt, 4)]) 1 2
    (by decide) (by decide) (by decide)

end Bridge
